import Mathlib

/-!
Shallow embedding of the core modules of the enhanced-task-manager repository
(src/core/safety_tiers.py, src/core/process_manager.py,
src/core/suppression_manager.py), with theorems settling the frozen claims
about the safety-tier classifier, the termination controller, the per-process
rate computation and the suppression ledger.

Modelling conventions:
- Python strings become Lean `String`; dictionaries with a fixed key set
  become structures of `Option` fields (`dict.get key default` becomes
  `Option.getD`).
- Calls into the operating system (psutil, subprocess, winreg) are modelled
  by explicit oracle structures passed to each embedded function; one field
  per distinct OS interaction the source performs.
- Python floats in the rate computation are modelled as exact rationals.
- A Python exception that escapes a function is modelled with `Except`;
  exceptions caught inside the source function are folded into its result.
-/

namespace TaskManager

/-! ### safety_tiers.py -/

/-- The three safety tiers of `SafetyTier` in src/core/safety_tiers.py. -/
inductive SafetyTier where
  | green
  | yellow
  | red
deriving DecidableEq, Repr

/-- The `SafetyInfo` named tuple of src/core/safety_tiers.py. -/
structure SafetyInfo where
  tier : SafetyTier
  label : String
  warning : String
  can_kill : Bool
deriving DecidableEq, Repr

/-- One record of the external JSON process database consulted through
`get_process_info` (src/core/process_descriptions.py). Only the keys read by
`classify_process` are modelled; an absent key is `none`. -/
structure PDbInfo where
  category : Option String := none
  safe_to_kill : Option Bool := none
  kill_warning : Option String := none
deriving DecidableEq, Repr

/-- The process database `get_process_info` reads: the JSON file
resources/process_db.json is external data (not part of src/), so the lookup
is a parameter. `none` also covers the case of an empty JSON object, which the
source treats as absent because an empty dict is falsy in `if info:`. -/
abbrev ProcDb := String → Option PDbInfo

/-- The `_CATEGORY_TIERS` mapping of src/core/safety_tiers.py,
as a lookup returning `none` for a key outside the dict. -/
def CATEGORY_TIERS : String → Option SafetyTier := fun c =>
  if c = "system_critical" then some SafetyTier.red
  else if c = "windows_service" then some SafetyTier.yellow
  else if c = "user_app" then some SafetyTier.green
  else if c = "background_app" then some SafetyTier.green
  else if c = "startup_item" then some SafetyTier.green
  else if c = "unknown" then some SafetyTier.green
  else none

/-- The `_ALWAYS_CRITICAL` set of src/core/safety_tiers.py. -/
def ALWAYS_CRITICAL : List String :=
  ["system", "smss.exe", "csrss.exe", "wininit.exe", "winlogon.exe",
   "services.exe", "lsass.exe", "lsaiso.exe", "dwm.exe", "ntoskrnl.exe",
   "registry.exe", "memory_compression", "trustedinstaller.exe",
   "fontdrvhost.exe"]

/-- The `_CAUTION_OVERRIDES` set of src/core/safety_tiers.py. -/
def CAUTION_OVERRIDES : List String :=
  ["explorer.exe", "spoolsv.exe", "searchindexer.exe", "audiodg.exe",
   "msmpeng.exe", "securityhealthservice.exe", "wlanext.exe",
   "nissrv.exe", "wudfhost.exe"]

/-- Python `str.lower()`: lowercase each character (the names involved are
ASCII). Defined by structural recursion over the character list so that it
evaluates by reduction. -/
def lowerStr (s : String) : String := String.mk (s.data.map Char.toLower)

/-- Embedding of `classify_process` of src/core/safety_tiers.py, line by line. The two
module-level sets and the database (read through `get_process_info`) are
ambient state in the source and are passed explicitly here; the program
itself always uses `ALWAYS_CRITICAL`, `CAUTION_OVERRIDES` and the loaded
database. -/
def classify_process (crit caution : List String) (db : ProcDb)
    (proc_name : String) (pid : Nat) : SafetyInfo :=
  let name_lower := lowerStr proc_name
  if pid = 0 ∨ pid = 4 then
    { tier := SafetyTier.red, label := "System Critical",
      warning := "Core operating system process. Cannot be terminated.",
      can_kill := false }
  else if crit.contains name_lower then
    let warning :=
      match db name_lower with
      | some info =>
          info.kill_warning.getD
            "System critical process. Terminating may crash Windows."
      | none => "System critical process. Terminating may crash Windows."
    { tier := SafetyTier.red, label := "System Critical",
      warning := warning, can_kill := false }
  else if caution.contains name_lower then
    let warning :=
      match db name_lower with
      | some info =>
          info.kill_warning.getD "This service may affect system functionality."
      | none => "This service may affect system functionality."
    { tier := SafetyTier.yellow, label := "Caution",
      warning := warning, can_kill := true }
  else
    match db name_lower with
    | some info =>
        let category := info.category.getD "unknown"
        let safe := info.safe_to_kill.getD true
        let warning := info.kill_warning.getD ""
        if safe = false ∧ category = "system_critical" then
          { tier := SafetyTier.red, label := "System Critical",
            warning := if warning = "" then "System critical process." else warning,
            can_kill := false }
        else if safe = false then
          { tier := SafetyTier.yellow, label := "Caution",
            warning :=
              if warning = "" then "This process provides important functionality."
              else warning,
            can_kill := true }
        else
          let tier := (CATEGORY_TIERS category).getD SafetyTier.green
          if tier = SafetyTier.yellow then
            { tier := SafetyTier.yellow, label := "Caution",
              warning :=
                if warning = "" then "Windows service — may affect functionality."
                else warning,
              can_kill := true }
          else
            { tier := SafetyTier.green, label := "Safe", warning := "",
              can_kill := true }
    | none =>
        { tier := SafetyTier.green, label := "Safe", warning := "",
          can_kill := true }

/-! ### process_manager.py — termination controller -/

/-- A psutil exception raised by one OS interaction inside
`ProcessManager.kill_process` / `kill_process_tree`. `otherError` stands for
any exception outside the two named psutil classes; its payload is the text
`str(e)` of the exception. -/
inductive PsError where
  | noSuchProcess
  | accessDenied
  | otherError (msg : String)
deriving DecidableEq, Repr

/-- A termination signal issued to the OS: `proc.terminate()` or
`proc.kill()` on a given pid. -/
inductive Signal where
  | terminate (pid : Nat)
  | kill (pid : Nat)
deriving DecidableEq, Repr

/-- Oracle for the OS interactions of `ProcessManager.kill_process` on one
target process. `lookup_error` is an exception raised by `psutil.Process(pid)`
or `proc.name()`; `terminate_result` / `kill_result` are exceptions raised by
`proc.terminate()` / `proc.kill()` (`none` means the call returned);
`wait_times_out` tells whether `proc.wait(timeout=3)` raises TimeoutExpired.
`exits_after_kill` records whether the process is actually gone after the
forceful kill — an OS fact the source never consults, carried here so that
claims about exit confirmation can be stated. -/
structure ProcWorld where
  name : String
  lookup_error : Option PsError := none
  terminate_result : Option PsError := none
  wait_times_out : Bool := false
  kill_result : Option PsError := none
  exits_after_kill : Bool := true
deriving Repr

/-- The result `(success, message)` of the exception handlers at the bottom of
`kill_process` for an escaped psutil exception. -/
def killExcResult (e : PsError) : Bool × String :=
  match e with
  | PsError.noSuchProcess => (true, "Process already terminated.")
  | PsError.accessDenied =>
      (false, "Access denied. Try running as Administrator.")
  | PsError.otherError m => (false, "Failed to terminate process: " ++ m)

/-- The blocked-termination message of `kill_process` and
`kill_process_tree`. -/
def blockedMsg (name warning : String) : String :=
  "BLOCKED: " ++ name ++ " is system critical. " ++ warning

/-- The success message of `kill_process`. -/
def killedMsg (name : String) (pid : Nat) : String :=
  "Successfully terminated " ++ name ++ " (PID " ++ toString pid ++ ")"

/-- Embedding of `ProcessManager.kill_process` of src/core/process_manager.py
(lines 226-252), over the OS oracle `w`. Returns the `(success, message)`
pair together with the list of termination signals issued, in order.
A signal appears in the trace when the corresponding OS call was made, even
if that call raised. The classifier runs on the ambient database `db` and the
module-level tier sets, as in the source. -/
def kill_process (db : ProcDb) (w : ProcWorld) (pid : Nat) (force : Bool) :
    (Bool × String) × List Signal :=
  match w.lookup_error with
  | some e => (killExcResult e, [])
  | none =>
    let safety := classify_process ALWAYS_CRITICAL CAUTION_OVERRIDES db w.name pid
    if safety.tier = SafetyTier.red ∧ force = false then
      ((false, blockedMsg w.name safety.warning), [])
    else if force then
      match w.kill_result with
      | none => ((true, killedMsg w.name pid), [Signal.kill pid])
      | some e => (killExcResult e, [Signal.kill pid])
    else
      match w.terminate_result with
      | some e => (killExcResult e, [Signal.terminate pid])
      | none =>
        if w.wait_times_out then
          match w.kill_result with
          | none =>
              ((true, killedMsg w.name pid),
               [Signal.terminate pid, Signal.kill pid])
          | some e => (killExcResult e, [Signal.terminate pid, Signal.kill pid])
        else
          ((true, killedMsg w.name pid), [Signal.terminate pid])

/-- Oracle for the OS interactions of `ProcessManager.kill_process_tree` on
one root process. `children` lists the pids returned by
`parent.children(recursive=True)`; `child_terminate pid` is the exception, if
any, of `child.terminate()` (NoSuchProcess and AccessDenied are swallowed by
the source, any other exception escapes); `parent_terminate` is the outcome of
`parent.terminate()`; `alive_after_wait` lists, in order, the processes still
alive after `psutil.wait_procs(children + [parent], timeout=3)`;
`child_kill pid` is the exception, if any, of `p.kill()` on a survivor
(NoSuchProcess and AccessDenied swallowed). -/
structure TreeWorld where
  name : String
  lookup_error : Option PsError := none
  children : List Nat := []
  child_terminate : Nat → Option PsError := fun _ => none
  parent_terminate : Option PsError := none
  alive_after_wait : List Nat := []
  child_kill : Nat → Option PsError := fun _ => none
deriving Inhabited

/-- The success message of `kill_process_tree`. -/
def treeKilledMsg (name : String) (nChildren : Nat) : String :=
  "Terminated " ++ name ++ " and " ++ toString nChildren ++ " child processes."

/-- The result of the trailing exception handlers of `kill_process_tree` for
an escaped exception. -/
def treeExcResult (e : PsError) : Bool × String :=
  match e with
  | PsError.noSuchProcess => (true, "Process already terminated.")
  | PsError.accessDenied => (false, "Access denied. Try running as Administrator.")
  | PsError.otherError m => (false, "Failed: " ++ m)

/-- The child loop of `kill_process_tree`:
for each child, `child.terminate()` with NoSuchProcess and AccessDenied
swallowed; any other exception stops the loop and escapes. Returns the
escaped exception, if any, and the accumulated signal trace. -/
def tree_term_children (outcome : Nat → Option PsError) :
    List Nat → List Signal → Option PsError × List Signal
  | [], trace => (none, trace)
  | c :: rest, trace =>
    match outcome c with
    | none => tree_term_children outcome rest (trace ++ [Signal.terminate c])
    | some PsError.noSuchProcess =>
        tree_term_children outcome rest (trace ++ [Signal.terminate c])
    | some PsError.accessDenied =>
        tree_term_children outcome rest (trace ++ [Signal.terminate c])
    | some (PsError.otherError m) =>
        (some (PsError.otherError m), trace ++ [Signal.terminate c])

/-- The survivor loop of `kill_process_tree`: `p.kill()` for each process
still alive after the collective wait, NoSuchProcess and AccessDenied
swallowed, any other exception escaping. -/
def tree_kill_alive (outcome : Nat → Option PsError) :
    List Nat → List Signal → Option PsError × List Signal
  | [], tr => (none, tr)
  | p :: rest, tr =>
    match outcome p with
    | none => tree_kill_alive outcome rest (tr ++ [Signal.kill p])
    | some PsError.noSuchProcess => tree_kill_alive outcome rest (tr ++ [Signal.kill p])
    | some PsError.accessDenied => tree_kill_alive outcome rest (tr ++ [Signal.kill p])
    | some (PsError.otherError m) =>
        (some (PsError.otherError m), tr ++ [Signal.kill p])

/-- Embedding of `ProcessManager.kill_process_tree` of src/core/process_manager.py
(lines 254-287), over the OS oracle `w`, returning `(success, message)` and
the signal trace. The function takes no force parameter, exactly as the
source. A `child.terminate()` raising something other than NoSuchProcess or
AccessDenied escapes the per-child handler and reaches the trailing handlers;
signals already issued before that point stay in the trace. -/
def kill_process_tree (db : ProcDb) (w : TreeWorld) (pid : Nat) :
    (Bool × String) × List Signal :=
  match w.lookup_error with
  | some e => (treeExcResult e, [])
  | none =>
    let safety := classify_process ALWAYS_CRITICAL CAUTION_OVERRIDES db w.name pid
    if safety.tier = SafetyTier.red then
      ((false, blockedMsg w.name safety.warning), [])
    else
      match tree_term_children w.child_terminate w.children [] with
      | (some e, trace) => (treeExcResult e, trace)
      | (none, trace) =>
        match w.parent_terminate with
        | some e => (treeExcResult e, trace ++ [Signal.terminate pid])
        | none =>
          match tree_kill_alive w.child_kill w.alive_after_wait
              (trace ++ [Signal.terminate pid]) with
          | (some e, tr) => (treeExcResult e, tr)
          | (none, tr) => ((true, treeKilledMsg w.name w.children.length), tr)

/-! ### process_manager.py — snapshot collector (rate computation) -/

/-- The per-process I/O counters returned by psutil (`io_counters`). -/
structure IoCounters where
  read_bytes : ℚ
  write_bytes : ℚ
deriving DecidableEq, Repr

/-- The `ProcessInfo` dataclass of src/core/process_manager.py
(lines 21-52), restricted to the fields the collector loop body assigns from
counters, sizes and names; fields resolved through external collaborators
(description text, company metadata, GPU) keep their defaults here exactly as
in the dataclass. Every field keeps the default of the dataclass. -/
structure ProcessInfo where
  pid : Nat := 0
  name : String := ""
  category : String := "unknown"
  safety : SafetyTier := SafetyTier.green
  safety_info : Option SafetyInfo := none
  disk_read_bytes : ℚ := 0
  disk_write_bytes : ℚ := 0
  disk_read_speed : ℚ := 0
  disk_write_speed : ℚ := 0
  net_sent_bytes : ℚ := 0
  net_recv_bytes : ℚ := 0
  net_sent_speed : ℚ := 0
  net_recv_speed : ℚ := 0
  threads : Nat := 0
  handles : Nat := 0
  status : String := ""
deriving Repr

/-- One entry of the psutil snapshot for one process: the attributes of
`psutil.process_iter` that the embedded loop body reads. `io` is `none` when
`io_counters` is unavailable for the process. -/
structure ProcSample where
  pid : Nat
  name : String
  io : Option IoCounters := none
  num_threads : Nat := 0
  num_handles : Nat := 0
  status : String := ""
deriving Repr

/-- The rate-tracking state of `ProcessManager`: `_prev_io` and `_prev_net`
map a pid to `(read_or_sent, write_or_recv, timestamp)`. The source
initialises both to empty dicts; `_prev_net` is never written afterwards. -/
structure RateState where
  prev_io : Nat → Option (ℚ × ℚ × ℚ) := fun _ => none
  prev_net : Nat → Option (ℚ × ℚ × ℚ) := fun _ => none

/-- The body of the `collect_processes` loop of src/core/process_manager.py
(lines 101-205) for one process, restricted to the counter and classification
assignments: builds the `ProcessInfo` for the sample and returns it together
with the updated rate-tracking state. Mirrors the source exactly: the disk
branch computes `max(0, delta / dt)` only when a previous `_prev_io` sample
exists and `dt > 0`, then overwrites `_prev_io[pid]`; no statement in the
loop reads or writes `_prev_net` or assigns the four `net_*` fields, so they
keep their dataclass defaults. -/
def build_process_info (db : ProcDb) (st : RateState) (s : ProcSample)
    (now : ℚ) : ProcessInfo × RateState :=
  let pi0 : ProcessInfo :=
    { pid := s.pid, name := s.name }
  -- Disk I/O with rate calculation
  let pi1 :=
    match s.io with
    | none => pi0
    | some io =>
      let base := { pi0 with
        disk_read_bytes := io.read_bytes,
        disk_write_bytes := io.write_bytes }
      match st.prev_io s.pid with
      | none => base
      | some (pr, pw, pt) =>
        let dt := now - pt
        if 0 < dt then
          { base with
            disk_read_speed := max 0 ((io.read_bytes - pr) / dt),
            disk_write_speed := max 0 ((io.write_bytes - pw) / dt) }
        else base
  let st1 :=
    match s.io with
    | none => st
    | some io =>
      { st with prev_io := fun p =>
          if p = s.pid then some (io.read_bytes, io.write_bytes, now)
          else st.prev_io p }
  let pi2 := { pi1 with
    threads := s.num_threads,
    handles := s.num_handles,
    status := s.status }
  let safetyInfo :=
    classify_process ALWAYS_CRITICAL CAUTION_OVERRIDES db s.name s.pid
  ({ pi2 with safety_info := some safetyInfo, safety := safetyInfo.tier }, st1)

/-! ### suppression_manager.py

Message strings follow the source except that the single-quote characters the
source puts around interpolated names are elided. The durable ledger is the
`entries` list; `_save` rewrites the file from `entries` in full after every
mutation, so the list returned by each embedded operation is the persisted
ledger. -/

/-- The `SuppressionEntry` dataclass of src/core/suppression_manager.py. -/
structure SuppressionEntry where
  process_name : String
  exe_path : String := ""
  method : String := ""
  detail : String := ""
  created : String := ""
  active : Bool := true
deriving DecidableEq, Repr

/-- Outcome of one `subprocess.run` call on `sc` or `schtasks`:
the call returned exit code 0, returned a nonzero code with the given stderr,
or raised (for example TimeoutExpired), with `str(e)` as payload. -/
inductive CallResult where
  | ok
  | fail (stderr : String)
  | raised (msg : String)
deriving DecidableEq, Repr

/-- Outcome of the registry writes of `block_via_ifeo`:
success, PermissionError, or another exception with `str(e)`. -/
inductive RegResult where
  | ok
  | permissionError
  | otherError (msg : String)
deriving DecidableEq, Repr

/-- Oracle for the OS interactions of `SuppressionManager`, one field per
distinct interaction. `hkcu_run_take name` / `hklm_run_take name` model the
OpenKey + QueryValueEx + DeleteValue sequence of `disable_startup_entry` on
one hive: `some v` means the value `v` was read and deleted, `none` means any
exception occurred there (the source continues to the next hive either way).
`hkcu_run_put` / `hklm_run_put` model the OpenKey + SetValueEx sequence of
the startup restore on one hive. `ifeo_unset` returns `some msg` when the
OpenKey / DeleteValue / CloseKey sequence of `unblock_ifeo` raises something
not swallowed (a missing Debugger value is swallowed by the source, hence
counts as `none`). `now_iso` is `datetime.now().isoformat()`. -/
structure SuppWorld where
  sc_config_disable : String → CallResult := fun _ => CallResult.ok
  sc_stop_raises : String → Option String := fun _ => none
  sc_config_auto : String → CallResult := fun _ => CallResult.ok
  schtasks_disable : String → CallResult := fun _ => CallResult.ok
  schtasks_enable : String → CallResult := fun _ => CallResult.ok
  ifeo_set : String → RegResult := fun _ => RegResult.ok
  ifeo_unset : String → Option String := fun _ => none
  hkcu_run_take : String → Option String := fun _ => none
  hklm_run_take : String → Option String := fun _ => none
  hkcu_run_put : String → String → Bool := fun _ _ => true
  hklm_run_put : String → String → Bool := fun _ _ => true
  now_iso : String := ""

/-- Embedding of `SuppressionManager.disable_service` (lines 65-90): configure the start
mode to disabled, and on success stop the service (its result ignored, but a
raise escapes to the handler), append a ledger entry and persist. Returns
`(success, message)` and the new ledger. -/
def disable_service (w : SuppWorld) (st : List SuppressionEntry)
    (service_name : String) (process_name : String := "") :
    (Bool × String) × List SuppressionEntry :=
  match w.sc_config_disable service_name with
  | CallResult.ok =>
    match w.sc_stop_raises service_name with
    | some e => ((false, e), st)
    | none =>
      let entry : SuppressionEntry :=
        { process_name := if process_name = "" then service_name else process_name,
          method := "service", detail := service_name,
          created := w.now_iso, active := true }
      ((true, "Service " ++ service_name ++ " disabled."), st ++ [entry])
  | CallResult.fail stderr => ((false, "Failed: " ++ stderr.trim), st)
  | CallResult.raised m => ((false, m), st)

/-- Embedding of `SuppressionManager.enable_service` (lines 92-109): reset the start mode
to auto and on success drop every ledger entry with method service and this
detail. -/
def enable_service (w : SuppWorld) (st : List SuppressionEntry)
    (service_name : String) : (Bool × String) × List SuppressionEntry :=
  match w.sc_config_auto service_name with
  | CallResult.ok =>
      ((true, "Service " ++ service_name ++ " re-enabled."),
       st.filter (fun e => !(e.method == "service" && e.detail == service_name)))
  | CallResult.fail stderr => ((false, "Failed: " ++ stderr.trim), st)
  | CallResult.raised m => ((false, m), st)

/-- Embedding of `SuppressionManager.disable_startup_entry` (lines 111-155): for HKCU then
HKLM, read and delete the Run value; on the first hive that succeeds, append
a ledger entry whose detail packs name, location and the captured value, and
return success. The side copy into the Run-Disabled key is try/pass in the
source and does not affect the ledger. -/
def disable_startup_entry (w : SuppWorld) (st : List SuppressionEntry)
    (name : String) (location : String := "registry")
    (process_name : String := "") : (Bool × String) × List SuppressionEntry :=
  if location = "registry" then
    let mkEntry : String → SuppressionEntry := fun value =>
      { process_name := if process_name = "" then name else process_name,
        method := "startup",
        detail := name ++ "|" ++ location ++ "|" ++ value,
        created := w.now_iso, active := true }
    match w.hkcu_run_take name with
    | some value =>
        ((true, "Startup entry " ++ name ++ " disabled."), st ++ [mkEntry value])
    | none =>
      match w.hklm_run_take name with
      | some value =>
          ((true, "Startup entry " ++ name ++ " disabled."), st ++ [mkEntry value])
      | none => ((false, "Startup entry " ++ name ++ " not found."), st)
  else ((false, "Unsupported location: " ++ location), st)

/-- Embedding of `SuppressionManager.disable_scheduled_task` (lines 157-179). -/
def disable_scheduled_task (w : SuppWorld) (st : List SuppressionEntry)
    (task_name : String) (process_name : String := "") :
    (Bool × String) × List SuppressionEntry :=
  match w.schtasks_disable task_name with
  | CallResult.ok =>
      let entry : SuppressionEntry :=
        { process_name := if process_name = "" then task_name else process_name,
          method := "task", detail := task_name,
          created := w.now_iso, active := true }
      ((true, "Scheduled task " ++ task_name ++ " disabled."), st ++ [entry])
  | CallResult.fail stderr => ((false, "Failed: " ++ stderr.trim), st)
  | CallResult.raised m => ((false, m), st)

/-- Embedding of `SuppressionManager.enable_scheduled_task` (lines 181-198). -/
def enable_scheduled_task (w : SuppWorld) (st : List SuppressionEntry)
    (task_name : String) : (Bool × String) × List SuppressionEntry :=
  match w.schtasks_enable task_name with
  | CallResult.ok =>
      ((true, "Scheduled task " ++ task_name ++ " re-enabled."),
       st.filter (fun e => !(e.method == "task" && e.detail == task_name)))
  | CallResult.fail stderr => ((false, "Failed: " ++ stderr.trim), st)
  | CallResult.raised m => ((false, m), st)

/-- Embedding of `SuppressionManager.block_via_ifeo` (lines 200-225): write the Debugger
redirect value, then append a ledger entry. -/
def block_via_ifeo (w : SuppWorld) (st : List SuppressionEntry)
    (exe_name : String) (process_name : String := "") :
    (Bool × String) × List SuppressionEntry :=
  match w.ifeo_set exe_name with
  | RegResult.ok =>
      let entry : SuppressionEntry :=
        { process_name := if process_name = "" then exe_name else process_name,
          exe_path := exe_name, method := "ifeo", detail := exe_name,
          created := w.now_iso, active := true }
      ((true, "Process " ++ exe_name ++ " blocked via IFEO."), st ++ [entry])
  | RegResult.permissionError =>
      ((false, "Access denied. Run as Administrator."), st)
  | RegResult.otherError m => ((false, m), st)

/-- Embedding of `SuppressionManager.unblock_ifeo` (lines 227-245): delete the Debugger
value (a missing value is swallowed) and on success drop every ledger entry
with method ifeo and this detail. -/
def unblock_ifeo (w : SuppWorld) (st : List SuppressionEntry)
    (exe_name : String) : (Bool × String) × List SuppressionEntry :=
  match w.ifeo_unset exe_name with
  | some m => ((false, m), st)
  | none =>
      ((true, "IFEO block removed for " ++ exe_name ++ "."),
       st.filter (fun e => !(e.method == "ifeo" && e.detail == exe_name)))

/-- Embedding of `SuppressionManager.restore_entry` (lines 247-278): dispatch on the
method of the entry at `index`; an out-of-range index (the source checks it
before indexing) is the `none` case of `get?`. For a startup entry the detail is split on
the bar character; with at least three parts the value is re-created in HKCU
first, then HKLM, the first success popping the entry; both hives failing, or
fewer than three parts, fall through to the missing-data failure. -/
def restore_entry (w : SuppWorld) (st : List SuppressionEntry) (index : Nat) :
    (Bool × String) × List SuppressionEntry :=
  match st.get? index with
  | none => ((false, "Invalid index."), st)
  | some entry =>
    if entry.method = "service" then enable_service w st entry.detail
    else if entry.method = "task" then enable_scheduled_task w st entry.detail
    else if entry.method = "ifeo" then unblock_ifeo w st entry.detail
    else if entry.method = "startup" then
      let parts := entry.detail.splitOn "|"
      if parts.length ≥ 3 then
        let name := parts.headD ""
        let value := String.intercalate "|" (parts.drop 2)
        if w.hkcu_run_put name value then
          ((true, "Startup entry " ++ name ++ " restored."), st.eraseIdx index)
        else if w.hklm_run_put name value then
          ((true, "Startup entry " ++ name ++ " restored."), st.eraseIdx index)
        else ((false, "Cannot restore startup entry — missing data."), st)
      else ((false, "Cannot restore startup entry — missing data."), st)
    else ((false, "Unknown method: " ++ entry.method), st)

/-- The loop of `SuppressionManager.restore_all` (lines 280-286), iterating
`i` over the indices of the ORIGINAL ledger from high to low (Python fixes
the range before the loop body runs). The argument is the current index plus
one. Reading `entries[i]` past the end of the current, possibly shortened
list raises an uncaught IndexError, modelled as `Except.error`. -/
def restore_all_go (w : SuppWorld) :
    Nat → List SuppressionEntry → List (Bool × String) →
    Except String (List (Bool × String) × List SuppressionEntry)
  | 0, st, acc => Except.ok (acc, st)
  | i + 1, st, acc =>
    match st.get? i with
    | none => Except.error "IndexError: list index out of range"
    | some e =>
      if e.active then
        let r := restore_entry w st i
        restore_all_go w i r.2 (acc ++ [r.1])
      else restore_all_go w i st acc

/-- Embedding of `SuppressionManager.restore_all` (lines 280-286): attempt
`restore_entry i` for every index of the original ledger holding an active
entry, newest (highest index) first, collecting the results in iteration
order; an IndexError from the shrinking ledger escapes as `Except.error`. -/
def restore_all (w : SuppWorld) (st : List SuppressionEntry) :
    Except String (List (Bool × String) × List SuppressionEntry) :=
  restore_all_go w st.length st []

/-! #### Startup loading of the ledger (`_load`, lines 37-44) -/

/-- One JSON object inside the persisted ledger file, as the keyword
dictionary passed to `SuppressionEntry(**e)`: each known field optionally
present, plus the list of keys outside the dataclass fields. -/
structure EntryJson where
  process_name : Option String := none
  exe_path : Option String := none
  method : Option String := none
  detail : Option String := none
  created : Option String := none
  active : Option Bool := none
  extra_keys : List String := []
deriving Repr

/-- One element of a top-level JSON array in the ledger file: an object, or
any non-object value (unpacking a non-mapping with two stars raises
TypeError). -/
inductive JsonItem where
  | obj (e : EntryJson)
  | nonObj
deriving Repr

/-- The persisted ledger file as seen by `_load`: missing
(FileNotFoundError), syntactically invalid (json.JSONDecodeError), or valid
JSON. A valid top level is an array (`jsonList`), a JSON object or string
(`jsonIterable n`: iterating it yields its `n` keys or characters, each a
non-mapping — so an empty object or empty string yields zero items), or a
non-iterable value such as a number, bool or null (`jsonNonIterable`). -/
inductive LedgerFile where
  | missing
  | invalidJson
  | jsonList (items : List JsonItem)
  | jsonIterable (n : Nat)
  | jsonNonIterable
deriving Repr

/-- Embedding of `SuppressionEntry(**e)` for one parsed object: Python raises TypeError
when a keyword is not a dataclass field or when the required field
process_name is absent; otherwise the remaining fields take their dataclass
defaults. -/
def suppression_entry_of_kwargs (e : EntryJson) : Except String SuppressionEntry :=
  if e.extra_keys ≠ [] then
    Except.error "TypeError: unexpected keyword argument"
  else
    match e.process_name with
    | none => Except.error "TypeError: missing required argument process_name"
    | some pn =>
        Except.ok
          { process_name := pn,
            exe_path := e.exe_path.getD "",
            method := e.method.getD "",
            detail := e.detail.getD "",
            created := e.created.getD "",
            active := e.active.getD true }

/-- Embedding of `SuppressionManager._load` (lines 37-44), the body of the constructor:
only FileNotFoundError and json.JSONDecodeError are caught (yielding an empty
ledger); a TypeError from the comprehension escapes the constructor, so
`Except.error` here is a failed startup. The comprehension over a top-level
object or string iterates its keys or characters: with zero items it
completes and the ledger is empty; otherwise the first item, a non-mapping,
raises TypeError. Iterating a non-iterable top level raises TypeError at
once. -/
def SuppressionManager_load (file : LedgerFile) :
    Except String (List SuppressionEntry) :=
  match file with
  | LedgerFile.missing => Except.ok []
  | LedgerFile.invalidJson => Except.ok []
  | LedgerFile.jsonList items =>
      items.mapM (fun it =>
        match it with
        | JsonItem.nonObj => Except.error "TypeError: argument is not a mapping"
        | JsonItem.obj e => suppression_entry_of_kwargs e)
  | LedgerFile.jsonIterable 0 => Except.ok []
  | LedgerFile.jsonIterable (_ + 1) =>
      Except.error "TypeError: argument is not a mapping"
  | LedgerFile.jsonNonIterable =>
      Except.error "TypeError: object is not iterable"

/-! ### Shared helper lemmas -/

/-- Filtering a list with a predicate that is false on one of its members
strictly shortens it. -/
theorem length_filter_lt_of_mem {α} {l : List α} {p : α → Bool} {x : α}
    (hx : x ∈ l) (hpx : p x = false) : (l.filter p).length < l.length := by
  induction l with
  | nil => cases hx
  | cons a t ih =>
    rcases List.mem_cons.1 hx with rfl | hmem
    · rw [List.filter_cons, hpx]
      simp only [Bool.false_eq_true, if_false, List.length_cons]
      exact Nat.lt_succ_of_le (List.filter_sublist t).length_le
    · rw [List.filter_cons]
      by_cases hpa : p a
      · simp only [hpa, if_true, List.length_cons]
        exact Nat.succ_lt_succ (ih hmem)
      · simp only [hpa, Bool.false_eq_true, if_false, List.length_cons]
        exact Nat.lt_succ_of_lt (ih hmem)

/-- Filtering with a predicate that is false on the element at position `i`
yields a sublist of the list with position `i` erased: the filter result both
drops that element and leaves every kept element unaltered. -/
theorem filter_sublist_eraseIdx {α} {l : List α} {p : α → Bool} {i : Nat}
    {a : α} (hg : l[i]? = some a) (hpa : p a = false) :
    List.Sublist (l.filter p) (l.eraseIdx i) := by
  induction l generalizing i with
  | nil => simp at hg
  | cons x t ih =>
    cases i with
    | zero =>
      simp only [List.getElem?_cons_zero, Option.some.injEq] at hg
      subst hg
      rw [List.filter_cons, hpa, List.eraseIdx_cons_zero]
      simp only [Bool.false_eq_true, if_false]
      exact List.filter_sublist t
    | succ n =>
      simp only [List.getElem?_cons_succ] at hg
      rw [List.filter_cons, List.eraseIdx_cons_succ]
      by_cases hx : p x
      · simp only [hx, if_true]
        exact List.Sublist.cons₂ x (ih hg)
      · simp only [hx, Bool.false_eq_true, if_false]
        exact List.Sublist.cons x (ih hg)

/-! ### Claims -/

/-- C2: for every process name, every always-critical set, every
caution-override set and every category database, `classify_process` at
pid 0 or pid 4 returns tier RED with can_kill = false. -/
theorem classify_pid_0_4_always_red (crit caution : List String) (db : ProcDb)
    (name : String) (pid : Nat) (h : pid = 0 ∨ pid = 4) :
    (classify_process crit caution db name pid).tier = SafetyTier.red ∧
    (classify_process crit caution db name pid).can_kill = false := by
  unfold classify_process
  rw [if_pos h]
  exact ⟨rfl, rfl⟩

/-- Witness for C2 at pid 4, name chosen outside every special set, with the
empty database. -/
theorem classify_pid_0_4_always_red_witness :
    ((4 : Nat) = 0 ∨ (4 : Nat) = 4) ∧
    ((classify_process [] [] (fun _ => none) "notepad.exe" 4).tier = SafetyTier.red ∧
     (classify_process [] [] (fun _ => none) "notepad.exe" 4).can_kill = false) :=
  ⟨Or.inr rfl,
   classify_pid_0_4_always_red [] [] (fun _ => none) "notepad.exe" 4 (Or.inr rfl)⟩

/-- C1: a non-forced `kill_process` on a process whose classification is tier
RED returns failure with the BLOCKED message carrying the warning of the
tier, and issues no termination signal at all. -/
theorem kill_process_red_unforced_blocked (db : ProcDb) (w : ProcWorld)
    (pid : Nat) (hlook : w.lookup_error = none)
    (hred : (classify_process ALWAYS_CRITICAL CAUTION_OVERRIDES db w.name pid).tier
      = SafetyTier.red) :
    kill_process db w pid false =
      ((false,
        blockedMsg w.name
          (classify_process ALWAYS_CRITICAL CAUTION_OVERRIDES db w.name pid).warning),
       []) := by
  unfold kill_process
  rw [hlook]
  simp [hred]

/-- Witness for C1: the kernel process (pid 4) with the empty database. -/
theorem kill_process_red_unforced_blocked_witness :
    ({ name := "x" } : ProcWorld).lookup_error = none ∧
    (classify_process ALWAYS_CRITICAL CAUTION_OVERRIDES (fun _ => none) "x" 4).tier
      = SafetyTier.red ∧
    kill_process (fun _ => none) { name := "x" } 4 false =
      ((false,
        blockedMsg "x"
          (classify_process ALWAYS_CRITICAL CAUTION_OVERRIDES (fun _ => none) "x" 4).warning),
       []) :=
  ⟨rfl, by decide,
   kill_process_red_unforced_blocked (fun _ => none) { name := "x" } 4 rfl (by decide)⟩

/-- C10: `kill_process_tree` takes no force parameter; on a root whose
classification is tier RED it always returns failure with the BLOCKED message
and issues no signal to the root or to any descendant, whereas single-process
`kill_process` with force = true bypasses the RED gate for the same process
and issues the kill. -/
theorem kill_process_tree_red_always_blocked (db : ProcDb) (w : TreeWorld)
    (pid : Nat) (hlook : w.lookup_error = none)
    (hred : (classify_process ALWAYS_CRITICAL CAUTION_OVERRIDES db w.name pid).tier
      = SafetyTier.red) :
    kill_process_tree db w pid =
      ((false,
        blockedMsg w.name
          (classify_process ALWAYS_CRITICAL CAUTION_OVERRIDES db w.name pid).warning),
       []) ∧
    (∀ pw : ProcWorld, pw.name = w.name → pw.lookup_error = none →
      pw.kill_result = none →
      kill_process db pw pid true = ((true, killedMsg w.name pid), [Signal.kill pid])) := by
  constructor
  · unfold kill_process_tree
    rw [hlook]
    simp [hred]
  · intro pw hname hlook2 hkill
    unfold kill_process
    rw [hlook2]
    simp [hname, hred, hkill]

/-- Witness for C10: the kernel process (pid 4) with the empty database. -/
theorem kill_process_tree_red_always_blocked_witness :
    ({ name := "x", children := [9, 10] } : TreeWorld).lookup_error = none ∧
    (classify_process ALWAYS_CRITICAL CAUTION_OVERRIDES (fun _ => none) "x" 4).tier
      = SafetyTier.red ∧
    kill_process_tree (fun _ => none) { name := "x", children := [9, 10] } 4 =
      ((false,
        blockedMsg "x"
          (classify_process ALWAYS_CRITICAL CAUTION_OVERRIDES (fun _ => none) "x" 4).warning),
       []) ∧
    kill_process (fun _ => none) { name := "x" } 4 true =
      ((true, killedMsg "x" 4), [Signal.kill 4]) :=
  ⟨rfl, by decide,
   (kill_process_tree_red_always_blocked (fun _ => none)
      { name := "x", children := [9, 10] } 4 rfl (by decide)).1,
   (kill_process_tree_red_always_blocked (fun _ => none)
      { name := "x", children := [9, 10] } 4 rfl (by decide)).2
     { name := "x" } rfl rfl rfl⟩

/-- C3 counterexample: the escalated path reports success without any exit
confirmation. Concretely: pid 5000, name worker.exe, graceful stop issued,
the 3-second wait times out, the forceful kill call returns — yet the process
does not actually exit afterwards (`exits_after_kill = false`, an OS fact the
source never consults). The code still reports success, where the claim
demands a Failed result when exit cannot be confirmed. -/
theorem kill_process_escalation_unconfirmed_success :
    ({ name := "worker.exe", wait_times_out := true,
       exits_after_kill := false } : ProcWorld).exits_after_kill = false ∧
    kill_process (fun _ => none)
        { name := "worker.exe", wait_times_out := true, exits_after_kill := false }
        5000 false =
      ((true, killedMsg "worker.exe" 5000),
       [Signal.terminate 5000, Signal.kill 5000]) :=
  ⟨rfl, by decide⟩

/-- C3 amended: on graceful-stop timeout the controller does escalate to an
unconditional kill (and never retries, the trace holds exactly one terminate
and one kill), but the reported outcome depends only on whether the kill call
itself raises — success whenever it returns, with no confirmation that the
process exited. -/
theorem kill_process_escalation_behavior (db : ProcDb) (w : ProcWorld)
    (pid : Nat) (hlook : w.lookup_error = none)
    (hnotred : (classify_process ALWAYS_CRITICAL CAUTION_OVERRIDES db w.name pid).tier
      ≠ SafetyTier.red)
    (hterm : w.terminate_result = none) (htimeout : w.wait_times_out = true) :
    (kill_process db w pid false).2 = [Signal.terminate pid, Signal.kill pid] ∧
    (kill_process db w pid false).1 =
      (match w.kill_result with
       | none => (true, killedMsg w.name pid)
       | some e => killExcResult e) := by
  simp only [kill_process, hlook]
  rw [if_neg (fun hc => hnotred hc.1)]
  simp only [Bool.false_eq_true, if_false, hterm, htimeout, if_true]
  cases hk : w.kill_result <;> simp [hk]

/-- Witness for the amended C3 theorem: worker.exe at pid 5000, kill call
returning normally. -/
theorem kill_process_escalation_behavior_witness :
    ({ name := "worker.exe", wait_times_out := true } : ProcWorld).lookup_error = none ∧
    (classify_process ALWAYS_CRITICAL CAUTION_OVERRIDES (fun _ => none)
        "worker.exe" 5000).tier ≠ SafetyTier.red ∧
    ({ name := "worker.exe", wait_times_out := true } : ProcWorld).terminate_result = none ∧
    ({ name := "worker.exe", wait_times_out := true } : ProcWorld).wait_times_out = true ∧
    (kill_process (fun _ => none) { name := "worker.exe", wait_times_out := true }
        5000 false).2 = [Signal.terminate 5000, Signal.kill 5000] ∧
    (kill_process (fun _ => none) { name := "worker.exe", wait_times_out := true }
        5000 false).1 = (true, killedMsg "worker.exe" 5000) :=
  ⟨rfl, by decide, rfl, rfl,
   (kill_process_escalation_behavior (fun _ => none)
      { name := "worker.exe", wait_times_out := true } 5000 rfl (by decide) rfl rfl).1,
   (kill_process_escalation_behavior (fun _ => none)
      { name := "worker.exe", wait_times_out := true } 5000 rfl (by decide) rfl rfl).2⟩

/-- C7: in the collector loop body, the disk read and write rates equal
max(0, delta / dt) when a previous sample for the pid exists and dt is
positive; they are 0 when no previous sample exists; a counter decrease gives
0, and the rates are never negative. -/
theorem disk_rates_from_prev_sample (db : ProcDb) (st : RateState)
    (s : ProcSample) (now : ℚ) (io : IoCounters) (hio : s.io = some io) :
    (∀ pr pw pt, st.prev_io s.pid = some (pr, pw, pt) → 0 < now - pt →
      (build_process_info db st s now).1.disk_read_speed
          = max 0 ((io.read_bytes - pr) / (now - pt)) ∧
      (build_process_info db st s now).1.disk_write_speed
          = max 0 ((io.write_bytes - pw) / (now - pt))) ∧
    (st.prev_io s.pid = none →
      (build_process_info db st s now).1.disk_read_speed = 0 ∧
      (build_process_info db st s now).1.disk_write_speed = 0) ∧
    (∀ pr pw pt, st.prev_io s.pid = some (pr, pw, pt) → 0 < now - pt →
      (io.read_bytes ≤ pr → (build_process_info db st s now).1.disk_read_speed = 0) ∧
      (io.write_bytes ≤ pw → (build_process_info db st s now).1.disk_write_speed = 0)) ∧
    0 ≤ (build_process_info db st s now).1.disk_read_speed ∧
    0 ≤ (build_process_info db st s now).1.disk_write_speed := by
  refine ⟨?_, ?_, ?_, ?_⟩
  · intro pr pw pt hprev hdt
    have hdt' : pt < now := by linarith
    simp [build_process_info, hio, hprev, hdt']
  · intro hprev
    simp [build_process_info, hio, hprev]
  · intro pr pw pt hprev hdt
    have hdt' : pt < now := by linarith
    constructor
    · intro hle
      have hq : (io.read_bytes - pr) / (now - pt) ≤ 0 :=
        div_nonpos_of_nonpos_of_nonneg (by linarith) (le_of_lt hdt)
      simp [build_process_info, hio, hprev, hdt', max_eq_left hq]
    · intro hle
      have hq : (io.write_bytes - pw) / (now - pt) ≤ 0 :=
        div_nonpos_of_nonpos_of_nonneg (by linarith) (le_of_lt hdt)
      simp [build_process_info, hio, hprev, hdt', max_eq_left hq]
  · rcases hprev : st.prev_io s.pid with _ | ⟨⟨pr, pw, pt⟩⟩
    · simp [build_process_info, hio, hprev]
    · by_cases hdt : pt < now
      · constructor <;> simp [build_process_info, hio, hprev, hdt, le_max_left]
      · constructor <;> simp [build_process_info, hio, hprev, hdt]

/-- Witness for C7: the example of the claim — counters (100, 200) at time 0
and (150, 250) at time 5 for pid 7 give read rate 10 and write rate 10, and a
simulated counter reset (90, 180) gives rate 0. -/
theorem disk_rates_from_prev_sample_witness :
    (({ pid := 7, name := "worker.exe",
        io := some { read_bytes := 150, write_bytes := 250 } } : ProcSample).io
      = some { read_bytes := 150, write_bytes := 250 }) ∧
    (({ prev_io := fun p => if p = 7 then some (100, 200, 0) else none } : RateState).prev_io 7
      = some (100, 200, 0)) ∧
    (0 : ℚ) < 5 - 0 ∧
    (build_process_info (fun _ => none)
        { prev_io := fun p => if p = 7 then some (100, 200, 0) else none }
        { pid := 7, name := "worker.exe",
          io := some { read_bytes := 150, write_bytes := 250 } }
        5).1.disk_read_speed = 10 ∧
    (build_process_info (fun _ => none)
        { prev_io := fun p => if p = 7 then some (100, 200, 0) else none }
        { pid := 7, name := "worker.exe",
          io := some { read_bytes := 150, write_bytes := 250 } }
        5).1.disk_write_speed = 10 ∧
    (build_process_info (fun _ => none)
        { prev_io := fun p => if p = 7 then some (100, 200, 0) else none }
        { pid := 7, name := "worker.exe",
          io := some { read_bytes := 90, write_bytes := 180 } }
        5).1.disk_read_speed = 0 := by
  refine ⟨rfl, by norm_num, by norm_num, ?_, ?_, ?_⟩
  · have h := (disk_rates_from_prev_sample (fun _ => none)
      { prev_io := fun p => if p = 7 then some (100, 200, 0) else none }
      { pid := 7, name := "worker.exe",
        io := some { read_bytes := 150, write_bytes := 250 } } 5
      { read_bytes := 150, write_bytes := 250 } rfl).1 100 200 0 (by norm_num) (by norm_num)
    rw [h.1]
    norm_num
  · have h := (disk_rates_from_prev_sample (fun _ => none)
      { prev_io := fun p => if p = 7 then some (100, 200, 0) else none }
      { pid := 7, name := "worker.exe",
        io := some { read_bytes := 150, write_bytes := 250 } } 5
      { read_bytes := 150, write_bytes := 250 } rfl).1 100 200 0 (by norm_num) (by norm_num)
    rw [h.2]
    norm_num
  · have h := ((disk_rates_from_prev_sample (fun _ => none)
      { prev_io := fun p => if p = 7 then some (100, 200, 0) else none }
      { pid := 7, name := "worker.exe",
        io := some { read_bytes := 90, write_bytes := 180 } } 5
      { read_bytes := 90, write_bytes := 180 } rfl).2.2.1 100 200 0 (by norm_num)
      (by norm_num)).1 (by norm_num)
    exact h

/-- C8 counterexample: even in a state where a previous network counter
sample is present for the pid (pid 7, counters (100, 200) at time 0) and the
process shows increased activity at time 5, the constructed record has zero
network rates and the `_prev_net` table is passed through untouched — the
collector loop never computes network rates at all. -/
theorem net_rates_zero_despite_prev_sample :
    (({ prev_net := fun p => if p = 7 then some (100, 200, 0) else none } : RateState).prev_net 7
      = some (100, 200, 0)) ∧
    (build_process_info (fun _ => none)
        { prev_net := fun p => if p = 7 then some (100, 200, 0) else none }
        { pid := 7, name := "worker.exe",
          io := some { read_bytes := 150, write_bytes := 250 } }
        5).1.net_sent_speed = 0 ∧
    (build_process_info (fun _ => none)
        { prev_net := fun p => if p = 7 then some (100, 200, 0) else none }
        { pid := 7, name := "worker.exe",
          io := some { read_bytes := 150, write_bytes := 250 } }
        5).1.net_recv_speed = 0 ∧
    (build_process_info (fun _ => none)
        { prev_net := fun p => if p = 7 then some (100, 200, 0) else none }
        { pid := 7, name := "worker.exe",
          io := some { read_bytes := 150, write_bytes := 250 } }
        5).2.prev_net 7 = some (100, 200, 0) := by
  refine ⟨by norm_num, ?_, ?_, ?_⟩ <;> norm_num [build_process_info]

/-- C8 amended: the per-process network rate and byte fields are always zero
— the collector loop body never assigns them and never records a network
counter sample, so `_prev_net` is unchanged by every collection. -/
theorem net_rates_never_computed (db : ProcDb) (st : RateState)
    (s : ProcSample) (now : ℚ) :
    (build_process_info db st s now).1.net_sent_speed = 0 ∧
    (build_process_info db st s now).1.net_recv_speed = 0 ∧
    (build_process_info db st s now).1.net_sent_bytes = 0 ∧
    (build_process_info db st s now).1.net_recv_bytes = 0 ∧
    (build_process_info db st s now).2.prev_net = st.prev_net := by
  unfold build_process_info
  rcases hio : s.io with _ | io
  · simp
  · rcases hprev : st.prev_io s.pid with _ | ⟨⟨pr, pw, pt⟩⟩
    · simp
    · by_cases hdt : 0 < now - pt <;> simp [if_pos, if_neg, hdt]

/-- C4 counterexample: with the service already disabled (sc config reports
exit code 0, sc stop raises nothing — the default oracle), two
`disable_service` calls both report success, but the ledger then holds two
active service entries for the service, not exactly one: the source appends
unconditionally on success and never coalesces duplicates. -/
theorem disable_service_twice_duplicate_entries :
    (disable_service {} [] "WorkerSvc" "").1.1 = true ∧
    (disable_service {} (disable_service {} [] "WorkerSvc" "").2 "WorkerSvc" "").1.1
      = true ∧
    ((disable_service {} (disable_service {} [] "WorkerSvc" "").2 "WorkerSvc" "").2.filter
        (fun e => e.method == "service" && e.detail == "WorkerSvc" && e.active)).length
      = 2 ∧
    ((disable_service {} (disable_service {} [] "WorkerSvc" "").2 "WorkerSvc" "").2.filter
        (fun e => e.method == "service" && e.detail == "WorkerSvc" && e.active)).length
      ≠ 1 := by
  refine ⟨rfl, rfl, rfl, by decide⟩

/-- C4 amended: calling `disable_service` twice on an already-disabled
service (the sc calls succeed) reports success both times, and the ledger
afterwards holds one active matching entry per call — the count grows by two,
duplicates are not coalesced. -/
theorem disable_service_twice_appends_twice (w : SuppWorld)
    (st : List SuppressionEntry) (svc pn : String)
    (hcfg : w.sc_config_disable svc = CallResult.ok)
    (hstop : w.sc_stop_raises svc = none) :
    (disable_service w st svc pn).1.1 = true ∧
    (disable_service w (disable_service w st svc pn).2 svc pn).1.1 = true ∧
    ((disable_service w (disable_service w st svc pn).2 svc pn).2.filter
        (fun e => e.method == "service" && e.detail == svc && e.active)).length =
      (st.filter (fun e => e.method == "service" && e.detail == svc && e.active)).length
        + 2 := by
  unfold disable_service
  rw [hcfg, hstop]
  simp [List.filter_append]

/-- Witness for the amended C4 theorem: WorkerSvc over the empty ledger with
the default oracle. -/
theorem disable_service_twice_appends_twice_witness :
    ({} : SuppWorld).sc_config_disable "WorkerSvc" = CallResult.ok ∧
    ({} : SuppWorld).sc_stop_raises "WorkerSvc" = none ∧
    (disable_service {} [] "WorkerSvc" "").1.1 = true ∧
    (disable_service {} (disable_service {} [] "WorkerSvc" "").2 "WorkerSvc" "").1.1
      = true ∧
    ((disable_service {} (disable_service {} [] "WorkerSvc" "").2 "WorkerSvc" "").2.filter
        (fun e => e.method == "service" && e.detail == "WorkerSvc" && e.active)).length =
      (([] : List SuppressionEntry).filter
        (fun e => e.method == "service" && e.detail == "WorkerSvc" && e.active)).length
        + 2 :=
  ⟨rfl, rfl,
   (disable_service_twice_appends_twice {} [] "WorkerSvc" "" rfl rfl).1,
   (disable_service_twice_appends_twice {} [] "WorkerSvc" "" rfl rfl).2.1,
   (disable_service_twice_appends_twice {} [] "WorkerSvc" "" rfl rfl).2.2⟩

/-- C9 counterexample: the persisted file content `[ {} ]` is well-formed
JSON (an array holding one empty object), but constructing
`SuppressionEntry(**{})` raises TypeError for the missing required field,
and `_load` catches only FileNotFoundError and JSONDecodeError — so startup
fails instead of degrading to an empty ledger. -/
theorem load_fails_on_schema_mismatch :
    SuppressionManager_load (LedgerFile.jsonList [JsonItem.obj {}]) =
      Except.error "TypeError: missing required argument process_name" := rfl

/-- C9 amended: `_load` degrades to the empty ledger when the file is
missing, when the JSON is syntactically invalid, and also when the top-level
value iterates to zero items (an empty object or empty string); but a
yielded non-mapping item (non-empty object or string top level) and a
non-iterable top level raise an uncaught TypeError, as does a list item that
fails entry construction, and startup fails. -/
theorem load_missing_or_bad_json_empty :
    SuppressionManager_load LedgerFile.missing = Except.ok [] ∧
    SuppressionManager_load LedgerFile.invalidJson = Except.ok [] ∧
    SuppressionManager_load (LedgerFile.jsonIterable 0) = Except.ok [] ∧
    (∀ n, SuppressionManager_load (LedgerFile.jsonIterable (n + 1)) =
      Except.error "TypeError: argument is not a mapping") ∧
    SuppressionManager_load LedgerFile.jsonNonIterable =
      Except.error "TypeError: object is not iterable" :=
  ⟨rfl, rfl, rfl, fun _ => rfl, rfl⟩

/-- C6: evaluation at the failing input: a ledger holding two identical
active service entries for WorkerSvc, with restores succeeding (default
oracle). The first attempted restore (index 1, the newest entry) removes BOTH
matching entries; the next loop iteration reads index 0 of the now-empty
list, so `restore_all` raises IndexError after producing a result for only
one of the two active entries, instead of attempting every active entry and
aggregating a result for each. -/
theorem restore_all_duplicate_entries_index_error :
    restore_all {}
        [{ process_name := "WorkerSvc", method := "service", detail := "WorkerSvc" },
         { process_name := "WorkerSvc", method := "service", detail := "WorkerSvc" }] =
      Except.error "IndexError: list index out of range" := rfl

/-- C5: ledger integrity across every suppression method. A failed apply of
any of the four methods leaves the ledger unchanged — an entry is appended
only after the underlying OS action succeeded — and a successful
`restore_entry` on index `i` removes the restored record itself: the new
ledger is a sublist of the old ledger with position `i` erased (so the
restored entry is gone and every surviving row is unaltered — no
restore-but-keep-record state), and is strictly shorter than the old
ledger. -/
theorem suppression_ledger_integrity (w : SuppWorld) :
    (∀ st svc pn, (disable_service w st svc pn).1.1 = false →
      (disable_service w st svc pn).2 = st) ∧
    (∀ st nm loc pn, (disable_startup_entry w st nm loc pn).1.1 = false →
      (disable_startup_entry w st nm loc pn).2 = st) ∧
    (∀ st task pn, (disable_scheduled_task w st task pn).1.1 = false →
      (disable_scheduled_task w st task pn).2 = st) ∧
    (∀ st exe pn, (block_via_ifeo w st exe pn).1.1 = false →
      (block_via_ifeo w st exe pn).2 = st) ∧
    (∀ st i, (restore_entry w st i).1.1 = true →
      List.Sublist (restore_entry w st i).2 (st.eraseIdx i) ∧
      (restore_entry w st i).2.length < st.length) := by
  refine ⟨?_, ?_, ?_, ?_, ?_⟩
  · intro st svc pn h
    rcases hc : w.sc_config_disable svc with _ | stderr | m
    · rcases hs : w.sc_stop_raises svc with _ | e
      · simp [disable_service, hc, hs] at h
      · simp [disable_service, hc, hs]
    · simp [disable_service, hc]
    · simp [disable_service, hc]
  · intro st nm loc pn h
    by_cases hloc : loc = "registry"
    · rcases h1 : w.hkcu_run_take nm with _ | v
      · rcases h2 : w.hklm_run_take nm with _ | v2
        · simp [disable_startup_entry, hloc, h1, h2]
        · simp [disable_startup_entry, hloc, h1, h2] at h
      · simp [disable_startup_entry, hloc, h1] at h
    · simp [disable_startup_entry, hloc]
  · intro st task pn h
    rcases hc : w.schtasks_disable task with _ | stderr | m
    · simp [disable_scheduled_task, hc] at h
    · simp [disable_scheduled_task, hc]
    · simp [disable_scheduled_task, hc]
  · intro st exe pn h
    rcases hc : w.ifeo_set exe with _ | _ | m
    · simp [block_via_ifeo, hc] at h
    · simp [block_via_ifeo, hc]
    · simp [block_via_ifeo, hc]
  · intro st i h
    rcases hg : st[i]? with _ | entry
    · simp [restore_entry, hg] at h
    · have hlen : i < st.length := (List.getElem?_eq_some.mp hg).1
      have herase : (st.eraseIdx i).length < st.length := by
        rw [List.length_eraseIdx]
        simp [hlen]
        omega
      by_cases hm1 : entry.method = "service"
      · rcases hc : w.sc_config_auto entry.detail with _ | stderr | m
        · have hres : (restore_entry w st i).2 =
              st.filter (fun e => !(e.method == "service" && e.detail == entry.detail)) := by
            simp [restore_entry, hg, hm1, enable_service, hc]
          have hsub : List.Sublist (restore_entry w st i).2 (st.eraseIdx i) := by
            rw [hres]
            exact filter_sublist_eraseIdx hg (by simp [hm1])
          exact ⟨hsub, lt_of_le_of_lt hsub.length_le herase⟩
        · simp [restore_entry, hg, hm1, enable_service, hc] at h
        · simp [restore_entry, hg, hm1, enable_service, hc] at h
      · by_cases hm2 : entry.method = "task"
        · rcases hc : w.schtasks_enable entry.detail with _ | stderr | m
          · have hres : (restore_entry w st i).2 =
                st.filter (fun e => !(e.method == "task" && e.detail == entry.detail)) := by
              simp [restore_entry, hg, hm1, hm2, enable_scheduled_task, hc]
            have hsub : List.Sublist (restore_entry w st i).2 (st.eraseIdx i) := by
              rw [hres]
              exact filter_sublist_eraseIdx hg (by simp [hm2])
            exact ⟨hsub, lt_of_le_of_lt hsub.length_le herase⟩
          · simp [restore_entry, hg, hm1, hm2, enable_scheduled_task, hc] at h
          · simp [restore_entry, hg, hm1, hm2, enable_scheduled_task, hc] at h
        · by_cases hm3 : entry.method = "ifeo"
          · rcases hio : w.ifeo_unset entry.detail with _ | m
            · have hres : (restore_entry w st i).2 =
                  st.filter (fun e => !(e.method == "ifeo" && e.detail == entry.detail)) := by
                simp [restore_entry, hg, hm1, hm2, hm3, unblock_ifeo, hio]
              have hsub : List.Sublist (restore_entry w st i).2 (st.eraseIdx i) := by
                rw [hres]
                exact filter_sublist_eraseIdx hg (by simp [hm3])
              exact ⟨hsub, lt_of_le_of_lt hsub.length_le herase⟩
            · simp [restore_entry, hg, hm1, hm2, hm3, unblock_ifeo, hio] at h
          · by_cases hm4 : entry.method = "startup"
            · by_cases hp : (entry.detail.splitOn "|").length ≥ 3
              · by_cases hk1 : w.hkcu_run_put ((entry.detail.splitOn "|").head?.getD "")
                    (String.intercalate "|" ((entry.detail.splitOn "|").drop 2)) = true
                · have hres : (restore_entry w st i).2 = st.eraseIdx i := by
                    simp [restore_entry, hg, hm1, hm2, hm3, hm4, hp, hk1]
                  rw [hres]
                  exact ⟨List.Sublist.refl _, herase⟩
                · by_cases hk2 : w.hklm_run_put ((entry.detail.splitOn "|").head?.getD "")
                      (String.intercalate "|" ((entry.detail.splitOn "|").drop 2)) = true
                  · have hres : (restore_entry w st i).2 = st.eraseIdx i := by
                      simp [restore_entry, hg, hm1, hm2, hm3, hm4, hp, hk1, hk2]
                    rw [hres]
                    exact ⟨List.Sublist.refl _, herase⟩
                  · simp [restore_entry, hg, hm1, hm2, hm3, hm4, hp, hk1, hk2] at h
              · simp [restore_entry, hg, hm1, hm2, hm3, hm4, hp] at h
            · simp [restore_entry, hg, hm1, hm2, hm3, hm4] at h

/-- Witness for C5: a failed service disable (sc config returns exit code 1)
leaves the empty ledger empty, and a successful restore of a one-entry
service ledger yields a sublist of that ledger with the restored row erased,
strictly shorter than before. -/
theorem suppression_ledger_integrity_witness :
    (disable_service { sc_config_disable := fun _ => CallResult.fail "err" }
        [] "X" "").1.1 = false ∧
    (disable_service { sc_config_disable := fun _ => CallResult.fail "err" }
        [] "X" "").2 = [] ∧
    (restore_entry {}
        [{ process_name := "X", method := "service", detail := "X" }] 0).1.1 = true ∧
    List.Sublist
      (restore_entry {}
        [{ process_name := "X", method := "service", detail := "X" }] 0).2
      (List.eraseIdx
        [{ process_name := "X", method := "service", detail := "X" }] 0) ∧
    (restore_entry {}
        [{ process_name := "X", method := "service", detail := "X" }] 0).2.length < 1 :=
  ⟨rfl,
   (suppression_ledger_integrity
      { sc_config_disable := fun _ => CallResult.fail "err" }).1 [] "X" "" rfl,
   rfl,
   ((suppression_ledger_integrity {}).2.2.2.2
      [{ process_name := "X", method := "service", detail := "X" }] 0 rfl).1,
   ((suppression_ledger_integrity {}).2.2.2.2
      [{ process_name := "X", method := "service", detail := "X" }] 0 rfl).2⟩

end TaskManager
